import Mathlib

/-!
Verification development for the financial data management system
(Express + MySQL).  The embedding covers:

* the storage boundary of config/database.js (executeQuery, which catches
  storage errors and returns a record with a success flag instead of
  throwing);
* the CSV reconciliation pipeline of backend/routes/data-loader.js
  (validateRow, processCSVData, processClient, processInvoice,
  processTransaction);
* the reporting layer of backend/routes/queries.js: the total-payments
  query and its summary computation in full; for the pending-invoices and
  transactions-by-platform endpoints, the identifier resolution of their
  SQL against database/schema.sql (whose invoices table lacks the
  invoice_date and due_date columns those statements reference), and the
  summary computation of transactions-by-platform as a function of the
  result rows it is handed.

Modelling conventions:

* DECIMAL amounts are modelled as integers (a fixed scaling of the
  DECIMAL(15,2) grid); every verified property is about sums, counts and
  comparisons, which are uniform in the scaling.  DATE and DATETIME values
  are modelled as integers (day or timestamp numbers).
* JavaScript values that flow through the data loader are modelled by the
  type JSVal below, including the value undefined, because the data loader
  reads properties such as length and insertId off the record returned by
  executeQuery, and in JavaScript a missing property reads as undefined.
* The magnitude of a floating point number produced by parseFloat is never
  inspected on any reachable path of the pipeline (such numbers only
  travel into INSERT parameter lists that fail earlier on an undefined
  bind parameter), so a parsed number is carried symbolically as
  JSNum.parsed of its source string; only its NaN-ness is modelled
  precisely (function parseFloatIsNaN).
-/

/-- Payload of a JavaScript number as used by the data loader: an integer
(row counts, surrogate ids), a number obtained by parseFloat from a numeric
string (carried symbolically, see the module comment), or NaN. -/
inductive JSNum where
  | int (n : Int)
  | parsed (s : String)
  | nan

/-- JavaScript value, restricted to the shapes that flow through the data
loader: undefined, null, booleans, numbers, strings, arrays and plain
objects. -/
inductive JSVal where
  | undefined
  | null
  | bool (b : Bool)
  | num (v : JSNum)
  | str (s : String)
  | arr (elems : List JSVal)
  | obj (props : List (String × JSVal))

/-- Property read v[p] in JavaScript: a named property of an object (or
undefined when absent), length or an index of an array, and undefined on
every other base value.  Reading a property off undefined or null throws
instead; that case is JSVal.getChecked below. -/
def JSVal.get (v : JSVal) (p : String) : JSVal :=
  match v with
  | .obj props =>
    match props.lookup p with
    | some w => w
    | none => .undefined
  | .arr es =>
    if p == "length" then .num (.int (es.length : Int))
    else
      match p.toNat? with
      | some i =>
        match es.get? i with
        | some w => w
        | none => .undefined
      | none => .undefined
  | _ => .undefined

/-- Property read that models the JavaScript TypeError thrown when the base
value is undefined or null (as in existingClient[0].client_id when
existingClient[0] is undefined). -/
def JSVal.getChecked (v : JSVal) (p : String) : Except String JSVal :=
  match v with
  | .undefined => .error ("Cannot read properties of undefined (reading " ++ p ++ ")")
  | .null => .error ("Cannot read properties of null (reading " ++ p ++ ")")
  | _ => .ok (v.get p)

/-- JavaScript truthiness of the values the pipeline tests: undefined,
null, NaN, false, 0 and the empty string are falsy.  A symbolically parsed
number is never truthiness-tested by the pipeline; it is mapped to true. -/
def JSVal.truthy (v : JSVal) : Bool :=
  match v with
  | .undefined => false
  | .null => false
  | .bool b => b
  | .num (.int n) => n != 0
  | .num (.parsed _) => true
  | .num .nan => false
  | .str s => s != ""
  | .arr _ => true
  | .obj _ => true

/-- JavaScript comparison v > 0 for the values the pipeline compares this
way (the result of reading length, which is an integer on an array and
undefined on the record returned by executeQuery): undefined > 0 is false
because undefined converts to NaN. -/
def JSVal.gtZero (v : JSVal) : Bool :=
  match v with
  | .num (.int n) => 0 < n
  | _ => false

/-- Check whether a JavaScript value is undefined (used for the bind
parameter check of the mysql2 driver). -/
def JSVal.isUndefined (v : JSVal) : Bool :=
  match v with
  | .undefined => true
  | _ => false

/-- SQL equality comparison column = ? between a stored string column and a
JavaScript bind parameter; comparison with NULL is not true. -/
def JSVal.eqStr (v : JSVal) (s : String) : Bool :=
  match v with
  | .str a => a == s
  | _ => false

/-- One parsed CSV record as produced by csv-parser: a mapping from the
header names to string cell values.  A column absent from the file is an
absent property (none); an empty cell is the empty string. -/
structure CsvRow where
  client_code : Option String := none
  first_name : Option String := none
  last_name : Option String := none
  email : Option String := none
  phone : Option String := none
  address : Option String := none
  city : Option String := none
  department : Option String := none
  invoice_number : Option String := none
  billing_period : Option String := none
  total_amount : Option String := none
  paid_amount : Option String := none
  invoice_status : Option String := none
  transaction_reference : Option String := none
  transaction_date : Option String := none
  transaction_amount : Option String := none
  transaction_type : Option String := none
  transaction_status : Option String := none
  platform_name : Option String := none
deriving DecidableEq

/-- Read a CSV field as the JavaScript value data.field: the string when
the column is present, undefined otherwise. -/
def fieldVal (f : Option String) : JSVal :=
  match f with
  | some s => .str s
  | none => .undefined

/-- JavaScript expression v || null as used for the optional client
fields. -/
def jsOrNull (v : JSVal) : JSVal :=
  if v.truthy then v else .null

/-- Drop the longest prefix of characters satisfying p. -/
def dropLeading (p : Char → Bool) : List Char → List Char
  | [] => []
  | c :: cs => if p c then dropLeading p cs else c :: cs

/-- Whitespace characters skipped by parseFloat. -/
def isJsWs (c : Char) : Bool :=
  c == ' ' || c == '\t' || c == '\n' || c == '\r'

/-- Whether a character sequence starts with a numeric literal prefix in
the sense of parseFloat (a digit, or a dot followed by a digit). -/
def numericStart (cs : List Char) : Bool :=
  match cs with
  | [] => false
  | c :: rest =>
    if c.isDigit then true
    else if c == '.' then
      match rest with
      | d :: _ => d.isDigit
      | [] => false
    else false

/-- Model of isNaN(parseFloat(s)): after optional leading whitespace and an
optional sign, parseFloat yields NaN exactly when no numeric prefix
follows.  Infinity literals are not modelled (treated as NaN); no verified
property depends on them. -/
def parseFloatIsNaN (s : String) : Bool :=
  let cs := dropLeading isJsWs s.toList
  let cs :=
    match cs with
    | c :: rest => if c == '+' || c == '-' then rest else c :: rest
    | [] => []
  !(numericStart cs)

/-- JavaScript parseFloat applied to a CSV field value: NaN on undefined
and on non-numeric strings, otherwise the parsed number carried
symbolically. -/
def jsParseFloat (v : JSVal) : JSVal :=
  match v with
  | .str s => if parseFloatIsNaN s then .num .nan else .num (.parsed s)
  | _ => .num .nan

/-- A row of the clients table (database/schema.sql). -/
structure ClientRec where
  client_id : Nat
  client_code : String
  first_name : String
  last_name : String
  email : Option String := none
  phone : Option String := none
  address : Option String := none
  city : Option String := none
  department : Option String := none
  is_active : Bool := true
deriving DecidableEq

/-- A row of the platforms table. -/
structure PlatformRec where
  platform_id : Nat
  platform_name : String
  platform_type : String
  is_active : Bool := true
deriving DecidableEq

/-- A row of the invoices table, with exactly the data columns that
database/schema.sql defines for it.  The reporting queries additionally
reference invoice_date and due_date, which the table does not define; see
invoicesTableColumns below. -/
structure InvoiceRec where
  invoice_id : Nat
  invoice_number : String
  client_id : Nat
  billing_period : String
  total_amount : Int
  paid_amount : Int
  status : String
  description : Option String := none
deriving DecidableEq

/-- A row of the transactions table. -/
structure TransactionRec where
  transaction_id : Nat
  transaction_reference : String
  invoice_id : Nat
  platform_id : Nat
  transaction_date : Int
  amount : Int
  transaction_type : String
  status : String
  description : Option String := none
deriving DecidableEq

/-- The relational store: the four tables plus the AUTO_INCREMENT counters
of their surrogate keys. -/
structure Store where
  clients : List ClientRec := []
  platforms : List PlatformRec := []
  invoices : List InvoiceRec := []
  transactions : List TransactionRec := []
  nextClientId : Nat := 1
  nextPlatformId : Nat := 1
  nextInvoiceId : Nat := 1
  nextTransactionId : Nat := 1
deriving DecidableEq

/-- The parameterized SQL statements issued by the data loader, one
constructor per call site of executeQuery in data-loader.js, with the bind
parameters in the order of the source arrays. -/
inductive DbStmt where
  | selectClientIdByCode (code : JSVal)
  | updateClientByCode (firstName lastName email phone address city department code : JSVal)
  | insertClient (code firstName lastName email phone address city department : JSVal)
  | selectInvoiceIdByNumber (invoiceNumber : JSVal)
  | updateInvoiceByNumber (billingPeriod totalAmount paidAmount status invoiceNumber : JSVal)
  | insertInvoice (invoiceNumber clientId billingPeriod totalAmount paidAmount status : JSVal)
  | selectPlatformIdByName (name : JSVal)
  | insertPlatform (name platformType : JSVal)
  | selectTransactionIdByReference (ref : JSVal)
  | updateTransactionByReference (invoiceId platformId date amount transactionType status ref : JSVal)
  | insertTransaction (ref invoiceId platformId date amount transactionType status : JSVal)

/-- Bind parameters of a statement, in source order. -/
def DbStmt.params : DbStmt → List JSVal
  | .selectClientIdByCode a => [a]
  | .updateClientByCode a b c d e f g h => [a, b, c, d, e, f, g, h]
  | .insertClient a b c d e f g h => [a, b, c, d, e, f, g, h]
  | .selectInvoiceIdByNumber a => [a]
  | .updateInvoiceByNumber a b c d e => [a, b, c, d, e]
  | .insertInvoice a b c d e f => [a, b, c, d, e, f]
  | .selectPlatformIdByName a => [a]
  | .insertPlatform a b => [a, b]
  | .selectTransactionIdByReference a => [a]
  | .updateTransactionByReference a b c d e f g => [a, b, c, d, e, f, g]
  | .insertTransaction a b c d e f g => [a, b, c, d, e, f, g]

/-- Conversion of a bind parameter into a NOT NULL string column. -/
def toDbStr (v : JSVal) : Option String :=
  match v with
  | .str s => some s
  | _ => none

/-- Conversion of a bind parameter into a nullable string column. -/
def toDbOptStr (v : JSVal) : Option (Option String) :=
  match v with
  | .null => some none
  | .str s => some (some s)
  | _ => none

/-- Conversion of a bind parameter into an integer id column. -/
def toDbId (v : JSVal) : Option Nat :=
  match v with
  | .num (.int n) => if 0 ≤ n then some n.toNat else none
  | _ => none

/-- Conversion of a bind parameter into a DECIMAL amount column.  The
symbolic parsed-float payload is not converted (see the module comment);
every statement carrying one also carries an undefined id parameter and is
rejected by the bind check before conversion is consulted. -/
def toDbAmount (v : JSVal) : Option Int :=
  match v with
  | .num (.int n) => some n
  | _ => none

/-- Conversion of a bind parameter into a DATETIME column.  String datetime
parsing is not modelled: the only statements that carry a datetime
parameter also carry an undefined id parameter and are rejected by the
bind check first. -/
def toDbDate (v : JSVal) : Option Int :=
  match v with
  | .num (.int n) => some n
  | _ => none

/-- ResultSetHeader returned by the mysql2 driver for INSERT and UPDATE
statements. -/
def insertHeader (insertId : Nat) (affected : Nat) : JSVal :=
  .obj [("insertId", .num (.int (insertId : Int))), ("affectedRows", .num (.int (affected : Int)))]

/-- Mysql2-level execution of one statement against the store: rejects
undefined bind parameters, enforces the UNIQUE, NOT NULL and FOREIGN KEY
constraints of database/schema.sql, and returns the driver rows (an array
for SELECT, a ResultSetHeader for INSERT and UPDATE).  Errors are thrown,
i.e. returned in the error branch; executeQuery below catches them. -/
def dbExecute (st : Store) (stmt : DbStmt) : Except String (Store × JSVal) :=
  if (stmt.params.any JSVal.isUndefined) then
    .error "Bind parameters must not contain undefined. To pass SQL NULL specify JS null"
  else
    match stmt with
    | .selectClientIdByCode code =>
      .ok (st, .arr ((st.clients.filter (fun c => code.eqStr c.client_code)).map
        (fun c => .obj [("client_id", .num (.int (c.client_id : Int)))])))
    | .updateClientByCode firstName lastName email phone address city department code =>
      match toDbStr firstName, toDbStr lastName, toDbOptStr email, toDbOptStr phone,
            toDbOptStr address, toDbOptStr city, toDbOptStr department, toDbStr code with
      | some fn, some ln, some em, some ph, some ad, some ci, some de, some co =>
        let touched := (st.clients.filter (fun c => c.client_code == co)).length
        .ok ({ st with clients := st.clients.map (fun c =>
                 if c.client_code == co then
                   { c with first_name := fn, last_name := ln, email := em, phone := ph,
                            address := ad, city := ci, department := de }
                 else c) },
             insertHeader 0 touched)
      | _, _, _, _, _, _, _, _ => .error "Incorrect string value"
    | .insertClient code firstName lastName email phone address city department =>
      match toDbStr code, toDbStr firstName, toDbStr lastName, toDbOptStr email, toDbOptStr phone,
            toDbOptStr address, toDbOptStr city, toDbOptStr department with
      | some co, some fn, some ln, some em, some ph, some ad, some ci, some de =>
        if st.clients.any (fun c => c.client_code == co) then
          .error ("Duplicate entry " ++ co ++ " for key clients.client_code")
        else if (match em with
                 | some e => st.clients.any (fun c => c.email == some e)
                 | none => false) then
          .error "Duplicate entry for key clients.email"
        else
          let newClient : ClientRec :=
            { client_id := st.nextClientId, client_code := co, first_name := fn,
              last_name := ln, email := em, phone := ph, address := ad, city := ci,
              department := de, is_active := true }
          .ok ({ st with clients := st.clients ++ [newClient],
                         nextClientId := st.nextClientId + 1 },
               insertHeader st.nextClientId 1)
      | _, _, _, _, _, _, _, _ => .error "Column cannot be null"
    | .selectInvoiceIdByNumber invoiceNumber =>
      .ok (st, .arr ((st.invoices.filter (fun i => invoiceNumber.eqStr i.invoice_number)).map
        (fun i => .obj [("invoice_id", .num (.int (i.invoice_id : Int)))])))
    | .updateInvoiceByNumber billingPeriod totalAmount paidAmount status invoiceNumber =>
      match toDbStr billingPeriod, toDbAmount totalAmount, toDbAmount paidAmount,
            toDbStr status, toDbStr invoiceNumber with
      | some bp, some ta, some pa, some stv, some num =>
        if (stv == "PENDING" || stv == "PARTIAL" || stv == "PAID" || stv == "OVERDUE") then
          let touched := (st.invoices.filter (fun i => i.invoice_number == num)).length
          .ok ({ st with invoices := st.invoices.map (fun i =>
                   if i.invoice_number == num then
                     { i with billing_period := bp, total_amount := ta, paid_amount := pa,
                              status := stv }
                   else i) },
               insertHeader 0 touched)
        else .error "Data truncated for column status"
      | _, _, _, _, _ => .error "Incorrect value"
    | .insertInvoice invoiceNumber clientId billingPeriod totalAmount paidAmount status =>
      match toDbStr invoiceNumber, toDbId clientId, toDbStr billingPeriod,
            toDbAmount totalAmount, toDbAmount paidAmount, toDbStr status with
      | some num, some cid, some bp, some ta, some pa, some stv =>
        if st.invoices.any (fun i => i.invoice_number == num) then
          .error ("Duplicate entry " ++ num ++ " for key invoices.invoice_number")
        else if !(st.clients.any (fun c => c.client_id == cid)) then
          .error "Cannot add or update a child row: a foreign key constraint fails (invoices.client_id)"
        else if !(stv == "PENDING" || stv == "PARTIAL" || stv == "PAID" || stv == "OVERDUE") then
          .error "Data truncated for column status"
        else
          let newInvoice : InvoiceRec :=
            { invoice_id := st.nextInvoiceId, invoice_number := num, client_id := cid,
              billing_period := bp, total_amount := ta, paid_amount := pa, status := stv }
          .ok ({ st with invoices := st.invoices ++ [newInvoice],
                         nextInvoiceId := st.nextInvoiceId + 1 },
               insertHeader st.nextInvoiceId 1)
      | _, _, _, _, _, _ => .error "Incorrect value"
    | .selectPlatformIdByName name =>
      .ok (st, .arr ((st.platforms.filter (fun p => name.eqStr p.platform_name)).map
        (fun p => .obj [("platform_id", .num (.int (p.platform_id : Int)))])))
    | .insertPlatform name platformType =>
      match toDbStr name, toDbStr platformType with
      | some nm, some ty =>
        if st.platforms.any (fun p => p.platform_name == nm) then
          .error ("Duplicate entry " ++ nm ++ " for key platforms.platform_name")
        else
          let newPlatform : PlatformRec :=
            { platform_id := st.nextPlatformId, platform_name := nm, platform_type := ty,
              is_active := true }
          .ok ({ st with platforms := st.platforms ++ [newPlatform],
                         nextPlatformId := st.nextPlatformId + 1 },
               insertHeader st.nextPlatformId 1)
      | _, _ => .error "Column cannot be null"
    | .selectTransactionIdByReference ref =>
      .ok (st, .arr ((st.transactions.filter (fun t => ref.eqStr t.transaction_reference)).map
        (fun t => .obj [("transaction_id", .num (.int (t.transaction_id : Int)))])))
    | .updateTransactionByReference invoiceId platformId date amount transactionType status ref =>
      match toDbId invoiceId, toDbId platformId, toDbDate date, toDbAmount amount,
            toDbStr transactionType, toDbStr status, toDbStr ref with
      | some iid, some pid, some dt, some am, some ty, some stv, some rf =>
        if !(st.invoices.any (fun i => i.invoice_id == iid)) then
          .error "Cannot add or update a child row: a foreign key constraint fails (transactions.invoice_id)"
        else if !(st.platforms.any (fun p => p.platform_id == pid)) then
          .error "Cannot add or update a child row: a foreign key constraint fails (transactions.platform_id)"
        else
          let touched := (st.transactions.filter (fun t => t.transaction_reference == rf)).length
          .ok ({ st with transactions := st.transactions.map (fun t =>
                   if t.transaction_reference == rf then
                     { t with invoice_id := iid, platform_id := pid, transaction_date := dt,
                              amount := am, transaction_type := ty, status := stv }
                   else t) },
               insertHeader 0 touched)
      | _, _, _, _, _, _, _ => .error "Incorrect value"
    | .insertTransaction ref invoiceId platformId date amount transactionType status =>
      match toDbStr ref, toDbId invoiceId, toDbId platformId, toDbDate date,
            toDbAmount amount, toDbStr transactionType, toDbStr status with
      | some rf, some iid, some pid, some dt, some am, some ty, some stv =>
        if st.transactions.any (fun t => t.transaction_reference == rf) then
          .error ("Duplicate entry " ++ rf ++ " for key transactions.transaction_reference")
        else if !(st.invoices.any (fun i => i.invoice_id == iid)) then
          .error "Cannot add or update a child row: a foreign key constraint fails (transactions.invoice_id)"
        else if !(st.platforms.any (fun p => p.platform_id == pid)) then
          .error "Cannot add or update a child row: a foreign key constraint fails (transactions.platform_id)"
        else
          let newTransaction : TransactionRec :=
            { transaction_id := st.nextTransactionId, transaction_reference := rf,
              invoice_id := iid, platform_id := pid, transaction_date := dt, amount := am,
              transaction_type := ty, status := stv }
          .ok ({ st with transactions := st.transactions ++ [newTransaction],
                         nextTransactionId := st.nextTransactionId + 1 },
               insertHeader st.nextTransactionId 1)
      | _, _, _, _, _, _, _ => .error "Incorrect value"

/-- The executeQuery helper of config/database.js: runs the statement and
catches any storage error, returning the record with the success flag and
either the rows or the error message.  It never throws; on error the store
is unchanged. -/
def executeQuery (st : Store) (stmt : DbStmt) : Store × JSVal :=
  match dbExecute st stmt with
  | .ok (st2, rows) => (st2, .obj [("success", .bool true), ("data", rows)])
  | .error m => (st, .obj [("success", .bool false), ("error", .str m)])

/-- Condition of the first check of validateRow: one of client code, first
name or last name is absent or empty (JavaScript falsy). -/
def missingClientInfo (data : CsvRow) : Bool :=
  !(fieldVal data.client_code).truthy || !(fieldVal data.first_name).truthy ||
    !(fieldVal data.last_name).truthy

/-- Condition of the second check of validateRow. -/
def missingInvoiceNumber (data : CsvRow) : Bool :=
  !(fieldVal data.invoice_number).truthy

/-- Condition of the third check of validateRow. -/
def missingTransactionReference (data : CsvRow) : Bool :=
  !(fieldVal data.transaction_reference).truthy

/-- Condition of the fourth check of validateRow. -/
def missingPlatformName (data : CsvRow) : Bool :=
  !(fieldVal data.platform_name).truthy

/-- Condition data.total_amount && isNaN(parseFloat(data.total_amount)). -/
def invalidTotalAmount (data : CsvRow) : Bool :=
  (fieldVal data.total_amount).truthy && parseFloatIsNaN (data.total_amount.getD "")

/-- Condition data.paid_amount && isNaN(parseFloat(data.paid_amount)). -/
def invalidPaidAmount (data : CsvRow) : Bool :=
  (fieldVal data.paid_amount).truthy && parseFloatIsNaN (data.paid_amount.getD "")

/-- Condition on the transaction amount field, analogous. -/
def invalidTransactionAmount (data : CsvRow) : Bool :=
  (fieldVal data.transaction_amount).truthy && parseFloatIsNaN (data.transaction_amount.getD "")

/-- The row validator of data-loader.js: pushes one message per failed
check, in source order, and never touches storage. -/
def validateRow (data : CsvRow) (rowNumber : Nat) : List String :=
  (if missingClientInfo data then
     ["Row " ++ toString rowNumber ++ ": Missing required client information"] else [])
  ++ (if missingInvoiceNumber data then
     ["Row " ++ toString rowNumber ++ ": Missing invoice number"] else [])
  ++ (if missingTransactionReference data then
     ["Row " ++ toString rowNumber ++ ": Missing transaction reference"] else [])
  ++ (if missingPlatformName data then
     ["Row " ++ toString rowNumber ++ ": Missing platform name"] else [])
  ++ (if invalidTotalAmount data then
     ["Row " ++ toString rowNumber ++ ": Invalid total amount"] else [])
  ++ (if invalidPaidAmount data then
     ["Row " ++ toString rowNumber ++ ": Invalid paid amount"] else [])
  ++ (if invalidTransactionAmount data then
     ["Row " ++ toString rowNumber ++ ": Invalid transaction amount"] else [])

/-- The processClient function of data-loader.js.  It looks the client up
by code, branches on existingClient.length > 0 (a property read off the
record returned by executeQuery), and returns the clientId together with
the created flag; a thrown error is wrapped with the prefix of the source
catch block. -/
def processClient (st : Store) (clientData : CsvRow) : Store × Except String JSVal :=
  let r1 := executeQuery st (.selectClientIdByCode (fieldVal clientData.client_code))
  let existingClient := r1.2
  if (existingClient.get "length").gtZero then
    let r2 := executeQuery r1.1 (.updateClientByCode (fieldVal clientData.first_name)
      (fieldVal clientData.last_name) (jsOrNull (fieldVal clientData.email))
      (jsOrNull (fieldVal clientData.phone)) (jsOrNull (fieldVal clientData.address))
      (jsOrNull (fieldVal clientData.city)) (jsOrNull (fieldVal clientData.department))
      (fieldVal clientData.client_code))
    match (existingClient.get "0").getChecked "client_id" with
    | .error m => (r2.1, .error ("Error processing client: " ++ m))
    | .ok cid => (r2.1, .ok (.obj [("clientId", cid), ("created", .bool false)]))
  else
    let r2 := executeQuery r1.1 (.insertClient (fieldVal clientData.client_code)
      (fieldVal clientData.first_name) (fieldVal clientData.last_name)
      (jsOrNull (fieldVal clientData.email)) (jsOrNull (fieldVal clientData.phone))
      (jsOrNull (fieldVal clientData.address)) (jsOrNull (fieldVal clientData.city))
      (jsOrNull (fieldVal clientData.department)))
    (r2.1, .ok (.obj [("clientId", r2.2.get "insertId"), ("created", .bool true)]))

/-- The processInvoice function of data-loader.js, taking the clientId
value computed by the caller. -/
def processInvoice (st : Store) (invoiceData : CsvRow) (clientId : JSVal) :
    Store × Except String JSVal :=
  let r1 := executeQuery st (.selectInvoiceIdByNumber (fieldVal invoiceData.invoice_number))
  let existingInvoice := r1.2
  if (existingInvoice.get "length").gtZero then
    let r2 := executeQuery r1.1 (.updateInvoiceByNumber (fieldVal invoiceData.billing_period)
      (jsParseFloat (fieldVal invoiceData.total_amount))
      (jsParseFloat (fieldVal invoiceData.paid_amount))
      (fieldVal invoiceData.invoice_status) (fieldVal invoiceData.invoice_number))
    match (existingInvoice.get "0").getChecked "invoice_id" with
    | .error m => (r2.1, .error ("Error processing invoice: " ++ m))
    | .ok iid => (r2.1, .ok (.obj [("invoiceId", iid), ("created", .bool false)]))
  else
    let r2 := executeQuery r1.1 (.insertInvoice (fieldVal invoiceData.invoice_number) clientId
      (fieldVal invoiceData.billing_period) (jsParseFloat (fieldVal invoiceData.total_amount))
      (jsParseFloat (fieldVal invoiceData.paid_amount)) (fieldVal invoiceData.invoice_status))
    (r2.1, .ok (.obj [("invoiceId", r2.2.get "insertId"), ("created", .bool true)]))

/-- The processTransaction function of data-loader.js: resolves or creates
the platform (a missing platform is inserted with platform_type
DIGITAL_WALLET), then upserts the transaction by reference. -/
def processTransaction (st : Store) (transactionData : CsvRow) (invoiceId : JSVal) :
    Store × Except String JSVal :=
  let r1 := executeQuery st (.selectPlatformIdByName (fieldVal transactionData.platform_name))
  let existingPlatform := r1.2
  let pstep : Store × Except String JSVal :=
    if (existingPlatform.get "length").gtZero then
      match (existingPlatform.get "0").getChecked "platform_id" with
      | .error m => (r1.1, .error m)
      | .ok pid => (r1.1, .ok pid)
    else
      let r2 := executeQuery r1.1 (.insertPlatform (fieldVal transactionData.platform_name)
        (.str "DIGITAL_WALLET"))
      (r2.1, .ok (r2.2.get "insertId"))
  match pstep.2 with
  | .error m => (pstep.1, .error ("Error processing transaction: " ++ m))
  | .ok platformId =>
    let r3 := executeQuery pstep.1
      (.selectTransactionIdByReference (fieldVal transactionData.transaction_reference))
    let existingTransaction := r3.2
    if (existingTransaction.get "length").gtZero then
      let r4 := executeQuery r3.1 (.updateTransactionByReference invoiceId platformId
        (fieldVal transactionData.transaction_date)
        (jsParseFloat (fieldVal transactionData.transaction_amount))
        (fieldVal transactionData.transaction_type)
        (fieldVal transactionData.transaction_status)
        (fieldVal transactionData.transaction_reference))
      match (existingTransaction.get "0").getChecked "transaction_id" with
      | .error m => (r4.1, .error ("Error processing transaction: " ++ m))
      | .ok tid => (r4.1, .ok (.obj [("transactionId", tid), ("created", .bool false)]))
    else
      let r4 := executeQuery r3.1 (.insertTransaction
        (fieldVal transactionData.transaction_reference) invoiceId platformId
        (fieldVal transactionData.transaction_date)
        (jsParseFloat (fieldVal transactionData.transaction_amount))
        (fieldVal transactionData.transaction_type)
        (fieldVal transactionData.transaction_status))
      (r4.1, .ok (.obj [("transactionId", r4.2.get "insertId"), ("created", .bool true)]))

/-- The statistics record accumulated by processCSVData. -/
structure Stats where
  clients_processed : Nat := 0
  clients_created : Nat := 0
  clients_updated : Nat := 0
  invoices_processed : Nat := 0
  invoices_created : Nat := 0
  invoices_updated : Nat := 0
  transactions_processed : Nat := 0
  transactions_created : Nat := 0
  transactions_updated : Nat := 0
  errors : List String := []
deriving DecidableEq

/-- Append the catch-block message Row n: m of processCSVData. -/
def pushRowError (stats : Stats) (rowNumber : Nat) (m : String) : Stats :=
  { stats with errors := stats.errors ++ ["Row " ++ toString rowNumber ++ ": " ++ m] }

/-- Client counter updates of the loop body. -/
def bumpClient (stats : Stats) (created : Bool) : Stats :=
  if created then
    { stats with clients_created := stats.clients_created + 1,
                 clients_processed := stats.clients_processed + 1 }
  else
    { stats with clients_updated := stats.clients_updated + 1,
                 clients_processed := stats.clients_processed + 1 }

/-- Invoice counter updates of the loop body. -/
def bumpInvoice (stats : Stats) (created : Bool) : Stats :=
  if created then
    { stats with invoices_created := stats.invoices_created + 1,
                 invoices_processed := stats.invoices_processed + 1 }
  else
    { stats with invoices_updated := stats.invoices_updated + 1,
                 invoices_processed := stats.invoices_processed + 1 }

/-- Transaction counter updates of the loop body. -/
def bumpTransaction (stats : Stats) (created : Bool) : Stats :=
  if created then
    { stats with transactions_created := stats.transactions_created + 1,
                 transactions_processed := stats.transactions_processed + 1 }
  else
    { stats with transactions_updated := stats.transactions_updated + 1,
                 transactions_processed := stats.transactions_processed + 1 }

/-- One iteration of the for loop of processCSVData: validate, then the
three process steps with their counter updates; a thrown error is caught
and recorded as Row n: message, and the store mutations already performed
in that iteration are kept. -/
def processRowStep (st : Store) (stats : Stats) (row : CsvRow) (rowNumber : Nat) :
    Store × Stats :=
  let validationErrors := validateRow row rowNumber
  if validationErrors.length > 0 then
    (st, { stats with errors := stats.errors ++ validationErrors })
  else
    match processClient st row with
    | (st1, .error m) => (st1, pushRowError stats rowNumber m)
    | (st1, .ok clientResult) =>
      let stats := bumpClient stats (clientResult.get "created").truthy
      match processInvoice st1 row (clientResult.get "clientId") with
      | (st2, .error m) => (st2, pushRowError stats rowNumber m)
      | (st2, .ok invoiceResult) =>
        let stats := bumpInvoice stats (invoiceResult.get "created").truthy
        match processTransaction st2 row (invoiceResult.get "invoiceId") with
        | (st3, .error m) => (st3, pushRowError stats rowNumber m)
        | (st3, .ok transactionResult) =>
          (st3, bumpTransaction stats (transactionResult.get "created").truthy)

/-- The for loop of processCSVData over the remaining rows, where i is the
zero-based index of the first remaining row; the row number reported for
it is i + 2 (header line plus one-based counting). -/
def processRows (st : Store) (stats : Stats) (data : List CsvRow) (i : Nat) : Store × Stats :=
  match data with
  | [] => (st, stats)
  | row :: rest =>
    let r := processRowStep st stats row (i + 2)
    processRows r.1 r.2 rest (i + 1)

/-- The processCSVData function of data-loader.js: fresh zero statistics,
then the loop over all rows. -/
def processCSVData (st : Store) (data : List CsvRow) : Store × Stats :=
  processRows st {} data 0

/-- Insert one element into a list sorted by the boolean comparison le. -/
def insertSorted {α : Type} (le : α → α → Bool) (x : α) : List α → List α
  | [] => [x]
  | y :: ys => if le x y then x :: y :: ys else y :: insertSorted le x ys

/-- Comparison sort modelling an ORDER BY clause.  Every verified property
about a reported row set is invariant under permutation, so the sorting
algorithm itself is irrelevant; only the fact that sorting permutes the
rows is used. -/
def sortBy {α : Type} (le : α → α → Bool) : List α → List α
  | [] => []
  | x :: xs => insertSorted le x (sortBy le xs)

/-- One result row of the total-payments query (GET
/api/queries/total-payments): one row per active client, grouped by the
client columns, with the COMPLETED transactions of the client aggregated
(COALESCE(SUM(t.amount), 0), COUNT(t.transaction_id),
MAX(t.transaction_date)). -/
structure TPRow where
  client_id : Nat
  client_code : String
  client_name : String
  total_paid : Int
  total_transactions : Nat
  last_payment_date : Option Int
deriving DecidableEq

/-- The join rows contributing to one client of the total-payments query:
for each invoice of the client, the COMPLETED transactions of that
invoice (LEFT JOIN multiplicities preserved; rows where the transaction
side is NULL contribute nothing to SUM and COUNT and are represented by
the empty list). -/
def tpJoinRows (st : Store) (c : ClientRec) : List TransactionRec :=
  (st.invoices.filter (fun i => i.client_id == c.client_id)).flatMap
    (fun i => st.transactions.filter
      (fun t => (t.invoice_id == i.invoice_id) && (t.status == "COMPLETED")))

/-- Maximum of a list of dates, none when the list is empty (SQL MAX over
no rows is NULL). -/
def maxDate (l : List Int) : Option Int :=
  l.foldl (fun acc x =>
    match acc with
    | none => some x
    | some m => some (max m x)) none

/-- Result rows of the total-payments query: active clients only, ordered
by total_paid descending. -/
def totalPaymentsRows (st : Store) : List TPRow :=
  sortBy (fun a b => b.total_paid ≤ a.total_paid)
    ((st.clients.filter (fun c => c.is_active)).map (fun c =>
      let txs := tpJoinRows st c
      { client_id := c.client_id, client_code := c.client_code,
        client_name := c.first_name ++ " " ++ c.last_name,
        total_paid := (txs.map (fun t => t.amount)).sum,
        total_transactions := txs.length,
        last_payment_date := maxDate (txs.map (fun t => t.transaction_date)) }))

/-- Summary block computed in JavaScript after the total-payments query.
Number division is modelled as exact rational division; the zero-client
branch of the ternary operator yields the literal 0. -/
structure TPSummary where
  total_clients : Nat
  total_amount_paid : Int
  average_payment_per_client : Rat
deriving DecidableEq

/-- The summary statistics of GET /api/queries/total-payments. -/
def totalPaymentsSummary (rows : List TPRow) : TPSummary :=
  let totalClients := rows.length
  let totalAmount := (rows.map (fun r => r.total_paid)).sum
  { total_clients := totalClients, total_amount_paid := totalAmount,
    average_payment_per_client :=
      if totalClients > 0 then (totalAmount : Rat) / (totalClients : Rat) else 0 }

/-- Shape of one entry of the result rows consumed by the summary
computation of GET /api/queries/transactions-by-platform (the JavaScript
reads platform_name, amount and status; the remaining identifying fields
are retained for context). -/
structure TxRow where
  transaction_id : Nat
  transaction_reference : String
  platform_name : String
  platform_type : String
  transaction_date : Int
  amount : Int
  transaction_type : String
  status : String
  client_code : String
  invoice_number : String
deriving DecidableEq

/-- Per-platform statistics entry of the transactions-by-platform
summary. -/
structure PlatStat where
  platform_name : String
  total_transactions : Nat
  total_amount : Int
  completed_transactions : Nat
  pending_transactions : Nat
  failed_transactions : Nat
deriving DecidableEq

/-- Fresh per-platform statistics entry, as initialized in the forEach of
the route handler. -/
def emptyPlatStat (name : String) : PlatStat :=
  { platform_name := name, total_transactions := 0, total_amount := 0,
    completed_transactions := 0, pending_transactions := 0, failed_transactions := 0 }

/-- Fold one result row into a per-platform entry: total count and amount
always, then the status if-chain (COMPLETED, PENDING, FAILED; any other
status, in particular CANCELLED, touches no status bucket). -/
def updatePlatStat (s : PlatStat) (r : TxRow) : PlatStat :=
  let s2 := { s with total_transactions := s.total_transactions + 1,
                     total_amount := s.total_amount + r.amount }
  if r.status == "COMPLETED" then
    { s2 with completed_transactions := s2.completed_transactions + 1 }
  else if r.status == "PENDING" then
    { s2 with pending_transactions := s2.pending_transactions + 1 }
  else if r.status == "FAILED" then
    { s2 with failed_transactions := s2.failed_transactions + 1 }
  else s2

/-- Add one result row to the keyed platform statistics (the platformStats
object of the route handler, modelled as an association list in insertion
order). -/
def addToPlatStats (acc : List (String × PlatStat)) (r : TxRow) : List (String × PlatStat) :=
  match acc with
  | [] => [(r.platform_name, updatePlatStat (emptyPlatStat r.platform_name) r)]
  | (n, s) :: rest =>
    if n == r.platform_name then (n, updatePlatStat s r) :: rest
    else (n, s) :: addToPlatStats rest r

/-- The per-platform breakdown of the transactions-by-platform summary. -/
def platformStatsFold (rows : List TxRow) : List (String × PlatStat) :=
  rows.foldl addToPlatStats []

/-- Summary block of GET /api/queries/transactions-by-platform. -/
structure TxSummary where
  total_transactions : Nat
  total_amount : Int
  completed_transactions : Nat
  pending_transactions : Nat
  failed_transactions : Nat
  platform_statistics : List (String × PlatStat)
deriving DecidableEq

/-- The summary statistics of GET /api/queries/transactions-by-platform. -/
def transactionsByPlatformSummary (rows : List TxRow) : TxSummary :=
  { total_transactions := rows.length,
    total_amount := (rows.map (fun r => r.amount)).sum,
    completed_transactions := (rows.filter (fun r => r.status == "COMPLETED")).length,
    pending_transactions := (rows.filter (fun r => r.status == "PENDING")).length,
    failed_transactions := (rows.filter (fun r => r.status == "FAILED")).length,
    platform_statistics := platformStatsFold rows }

/-- The scenario row of the testable properties section: client TEST001
with invoice INV-1, transaction TXN-1 on platform Nequi and whole amounts
of 100. -/
def specRow : CsvRow :=
  { client_code := some "TEST001", first_name := some "Test", last_name := some "User",
    invoice_number := some "INV-1", transaction_reference := some "TXN-1",
    platform_name := some "Nequi", total_amount := some "100", paid_amount := some "100",
    transaction_amount := some "100" }

/-- First import of the scenario row into an empty store. -/
def firstRun : Store × Stats := processCSVData {} [specRow]

/-- Second import of the identical row into the store left by the first
import. -/
def secondRun : Store × Stats := processCSVData firstRun.1 [specRow]

/-- The INSERT INTO invoices statement that processInvoice issues for the
scenario row during the first import, with the clientId value the caller
computes (the insertId property read off the record returned by
executeQuery, which is undefined). -/
def invoiceInsertAttempt : Store × JSVal :=
  executeQuery (processClient {} specRow).1
    (.insertInvoice (fieldVal specRow.invoice_number)
      (match (processClient {} specRow).2 with
       | .ok v => v.get "clientId"
       | .error _ => JSVal.null)
      (fieldVal specRow.billing_period)
      (jsParseFloat (fieldVal specRow.total_amount))
      (jsParseFloat (fieldVal specRow.paid_amount))
      (fieldVal specRow.invoice_status))

/-- A store already holding the client, the invoice INV-1 and the platform
Nequi (as left by the seed data of the schema), used to exercise the
existing-platform path of processTransaction. -/
def seededStore : Store :=
  { clients := [{ client_id := 1, client_code := "TEST001", first_name := "Test",
                  last_name := "User" }],
    platforms := [{ platform_id := 1, platform_name := "Nequi",
                    platform_type := "DIGITAL_WALLET" }],
    invoices := [{ invoice_id := 1, invoice_number := "INV-1", client_id := 1,
                   billing_period := "2024-01", total_amount := 100, paid_amount := 100,
                   status := "PAID" }],
    transactions := [],
    nextClientId := 2, nextPlatformId := 2, nextInvoiceId := 2, nextTransactionId := 1 }

/-- The per-entity counter balance: processed equals created plus
updated, for all three entity kinds. -/
def statsBalanced (s : Stats) : Prop :=
  s.clients_processed = s.clients_created + s.clients_updated ∧
  s.invoices_processed = s.invoices_created + s.invoices_updated ∧
  s.transactions_processed = s.transactions_created + s.transactions_updated

/-- Sum of the amounts of all transactions with status COMPLETED in the
store, regardless of which client owns them. -/
def completedSumStore (st : Store) : Int :=
  ((st.transactions.filter (fun t => t.status == "COMPLETED")).map (fun t => t.amount)).sum

/-- Whether an invoice belongs to an active client of the store. -/
def ownerIsActive (st : Store) (i : InvoiceRec) : Bool :=
  st.clients.any (fun c => c.is_active && (i.client_id == c.client_id))

/-- Sum of the amounts of the COMPLETED transactions whose invoice belongs
to an active client of the store. -/
def activeCompletedSum (st : Store) : Int :=
  ((st.transactions.filter (fun t => (t.status == "COMPLETED") &&
      st.invoices.any (fun i => ownerIsActive st i && (t.invoice_id == i.invoice_id)))).map
    (fun t => t.amount)).sum

/-- Fold a group of result rows into a per-platform statistics entry (the
repeated updates applied to one entry of the platformStats object). -/
def applyRows (s : PlatStat) (rs : List TxRow) : PlatStat :=
  rs.foldl updatePlatStat s

/-- Store with one inactive (soft-deleted) client owning an invoice with a
COMPLETED transaction of amount 100. -/
def c3CexStore : Store :=
  { clients := [{ client_id := 1, client_code := "CLI001", first_name := "Ana",
                  last_name := "Diaz", is_active := false }],
    platforms := [{ platform_id := 1, platform_name := "Nequi",
                    platform_type := "DIGITAL_WALLET" }],
    invoices := [{ invoice_id := 1, invoice_number := "INV-1", client_id := 1,
                   billing_period := "2024-01", total_amount := 100, paid_amount := 100,
                   status := "PAID" }],
    transactions := [{ transaction_id := 1, transaction_reference := "TXN-1",
                       invoice_id := 1, platform_id := 1, transaction_date := 10,
                       amount := 100, transaction_type := "PAYMENT",
                       status := "COMPLETED" }],
    nextClientId := 2, nextPlatformId := 2, nextInvoiceId := 2, nextTransactionId := 2 }

/-- Active client without any transaction, used as a witness. -/
def c3Client2 : ClientRec :=
  { client_id := 2, client_code := "CLI002", first_name := "Luis", last_name := "Rojas" }

/-- Store with two active clients: client 1 has an invoice with a COMPLETED
transaction of amount 100, client 2 has an invoice with no transactions. -/
def c3WitStore : Store :=
  { clients := [{ client_id := 1, client_code := "CLI001", first_name := "Ana",
                  last_name := "Diaz" }, c3Client2],
    platforms := [{ platform_id := 1, platform_name := "Nequi",
                    platform_type := "DIGITAL_WALLET" }],
    invoices := [{ invoice_id := 1, invoice_number := "INV-1", client_id := 1,
                   billing_period := "2024-01", total_amount := 100, paid_amount := 100,
                   status := "PAID" },
                 { invoice_id := 2, invoice_number := "INV-2", client_id := 2,
                   billing_period := "2024-01", total_amount := 50, paid_amount := 0,
                   status := "PENDING" }],
    transactions := [{ transaction_id := 1, transaction_reference := "TXN-1",
                       invoice_id := 1, platform_id := 1, transaction_date := 10,
                       amount := 100, transaction_type := "PAYMENT",
                       status := "COMPLETED" }],
    nextClientId := 3, nextPlatformId := 2, nextInvoiceId := 3, nextTransactionId := 2 }

/-- Row with every required field except the platform name, and numeric
amounts. -/
def c4Row : CsvRow :=
  { client_code := some "TEST001", first_name := some "Test", last_name := some "User",
    invoice_number := some "INV-1", transaction_reference := some "TXN-1",
    total_amount := some "100", paid_amount := some "50",
    transaction_amount := some "50" }

/-- Two-row batch whose second data row is missing its invoice number. -/
def c8Data : List CsvRow :=
  [specRow, { client_code := some "TEST002", first_name := some "Eva",
              last_name := some "Gil", transaction_reference := some "TXN-2",
              platform_name := some "Nequi" }]

/-- Expected value of a lookup into the per-platform statistics after
folding a group of rows: an existing entry accumulates the whole group, an
absent entry appears exactly when the group is nonempty. -/
def lookupSpec (name : String) (o : Option PlatStat) (grp : List TxRow) : Option PlatStat :=
  match o with
  | some s => some (applyRows s grp)
  | none =>
    match grp with
    | [] => none
    | _ :: _ => some (applyRows (emptyPlatStat name) grp)

/-- Data columns of the invoices table as created by database/schema.sql
(timestamps included). -/
def invoicesTableColumns : List String :=
  ["invoice_id", "invoice_number", "client_id", "billing_period", "total_amount",
   "paid_amount", "status", "description", "created_at", "updated_at"]

/-- Invoice columns referenced by the SQL text of GET
/api/queries/pending-invoices (SELECT list, pending_amount, DATEDIFF, the
CASE expression, the JOIN condition and the ORDER BY), in order of first
appearance in the statement. -/
def pendingInvoicesInvoiceColumnRefs : List String :=
  ["invoice_id", "invoice_number", "invoice_date", "due_date", "total_amount",
   "paid_amount", "status", "description", "client_id"]

/-- Invoice columns referenced by the SQL text of GET
/api/queries/transactions-by-platform, in order of first appearance in
the statement. -/
def transactionsByPlatformInvoiceColumnRefs : List String :=
  ["invoice_number", "invoice_date", "total_amount", "status", "invoice_id", "client_id"]

/-- Identifier resolution of a SELECT referencing the given invoice
columns against the schema: MySQL resolves every referenced column before
reading any data, and refuses the whole statement on the first missing
one (error text abridged, without the quotation marks of the original
message).  A statement referencing a missing column therefore fails the
same way on every database state, including the empty one; executeQuery
turns the failure into a record with success set to false, and the route
answers its error branch without rows or summary. -/
def resolveInvoiceColumns (cols : List String) : Except String Unit :=
  match cols.find? (fun c => !(invoicesTableColumns.contains c)) with
  | some c => .error ("Unknown column i." ++ c)
  | none => .ok ()

/-- Result rows with one row in each of the four transaction statuses on
a single platform, used as a witness for the summary accounting. -/
def c10Rows : List TxRow :=
  [{ transaction_id := 1, transaction_reference := "TXN-1", platform_name := "Nequi",
     platform_type := "DIGITAL_WALLET", transaction_date := 1, amount := 10,
     transaction_type := "PAYMENT", status := "COMPLETED", client_code := "CLI001",
     invoice_number := "INV-1" },
   { transaction_id := 2, transaction_reference := "TXN-2", platform_name := "Nequi",
     platform_type := "DIGITAL_WALLET", transaction_date := 2, amount := 20,
     transaction_type := "PAYMENT", status := "PENDING", client_code := "CLI001",
     invoice_number := "INV-1" },
   { transaction_id := 3, transaction_reference := "TXN-3", platform_name := "Nequi",
     platform_type := "DIGITAL_WALLET", transaction_date := 3, amount := 30,
     transaction_type := "PAYMENT", status := "FAILED", client_code := "CLI001",
     invoice_number := "INV-1" },
   { transaction_id := 4, transaction_reference := "TXN-4", platform_name := "Nequi",
     platform_type := "DIGITAL_WALLET", transaction_date := 4, amount := 40,
     transaction_type := "REFUND", status := "CANCELLED", client_code := "CLI001",
     invoice_number := "INV-1" }]

/-! Verified properties of the embedding and of the claims follow. -/

/-- Inserting into a sorted list permutes consing. -/
theorem insertSorted_perm {α : Type} (le : α → α → Bool) (x : α) (l : List α) :
    (insertSorted le x l).Perm (x :: l) := by
  induction l with
  | nil => simp [insertSorted]
  | cons y ys ih =>
    by_cases h : le x y
    · simp [insertSorted, h]
    · simp only [insertSorted, h, if_neg, Bool.not_eq_true]
      exact ((ih.cons y).trans (List.Perm.swap x y ys)).symm.symm

/-- Sorting permutes the list. -/
theorem sortBy_perm {α : Type} (le : α → α → Bool) (l : List α) :
    (sortBy le l).Perm l := by
  induction l with
  | nil => simp [sortBy]
  | cons x xs ih => exact (insertSorted_perm le x (sortBy le xs)).trans (ih.cons x)

/-- Membership is invariant under sorting. -/
theorem mem_sortBy {α : Type} (le : α → α → Bool) (l : List α) (x : α) :
    x ∈ sortBy le l ↔ x ∈ l :=
  (sortBy_perm le l).mem_iff

/-- Sum of mapped values is invariant under sorting. -/
theorem sum_map_sortBy {α : Type} (le : α → α → Bool) (l : List α) (f : α → Int) :
    ((sortBy le l).map f).sum = (l.map f).sum :=
  ((sortBy_perm le l).map f).sum_eq

/-- Pointwise sum of two summand functions splits. -/
theorem sum_map_add_split {α : Type} (l : List α) (f g : α → Int) :
    (l.map (fun x => f x + g x)).sum = (l.map f).sum + (l.map g).sum := by
  induction l with
  | nil => simp
  | cons x xs ih => simp [ih]; ring

/-- Sum over a mapped flatMap decomposes into a sum of inner sums. -/
theorem sum_map_flatMap {α β : Type} (l : List α) (g : α → List β) (f : β → Int) :
    ((l.flatMap g).map f).sum = (l.map (fun x => ((g x).map f).sum)).sum := by
  induction l with
  | nil => simp
  | cons x xs ih => simp [List.flatMap_cons, List.map_append, List.sum_append, ih]

/-- A sum of indicator values over a list whose keys are distinct collapses
to a single conditional: at most one element can match the key. -/
theorem sum_if_unique_key {α : Type} (C : List α) (k : α → Nat) (p : α → Bool)
    (key : Nat) (v : Int) (hnd : (C.map k).Nodup) :
    (C.map (fun c => if p c && (key == k c) then v else 0)).sum =
      if C.any (fun c => p c && (key == k c)) then v else 0 := by
  induction C with
  | nil => simp
  | cons c C ih =>
    rw [List.map_cons] at hnd
    rcases List.nodup_cons.mp hnd with ⟨hk, hnd2⟩
    rw [List.map_cons, List.sum_cons, List.any_cons, ih hnd2]
    by_cases hkey : key = k c
    · have hany : C.any (fun c2 => p c2 && (key == k c2)) = false := by
        rw [List.any_eq_false]
        intro c2 hc2
        have hne : key ≠ k c2 := by
          intro hEq
          apply hk
          rw [← hkey, hEq]
          exact List.mem_map_of_mem k hc2
        rw [beq_eq_false_iff_ne.mpr hne, Bool.and_false]
        simp
      have htr : (key == k c) = true := beq_iff_eq.mpr hkey
      rw [hany, htr]
      by_cases hp : p c = true
      · simp [hp]
      · have hp2 : p c = false := by simpa using hp
        simp [hp2]
    · have hbeq : (key == k c) = false := beq_eq_false_iff_ne.mpr hkey
      simp [hbeq]

/-- Restricting a conditional sum by a filter is the same as conjoining the
filter predicate into the condition. -/
theorem sum_map_filter_ite {α : Type} (C : List α) (p q : α → Bool) (v : Int) :
    ((C.filter p).map (fun c => if q c then v else 0)).sum =
      (C.map (fun c => if p c && q c then v else 0)).sum := by
  induction C with
  | nil => simp
  | cons c C ih =>
    by_cases hp : p c = true
    · by_cases hq : q c = true
      · simp [List.filter_cons, hp, hq, ih]
      · have hq2 : q c = false := by simpa using hq
        simp [List.filter_cons, hp, hq2, ih]
    · have hp2 : p c = false := by simpa using hp
      simp [List.filter_cons, hp2, ih]

/-- Exchange of a double sum: summing, over the elements of C selected by
p, the f-values of the elements of I whose key equals the element's key,
equals a single conditional sum over I, provided the keys of C are
distinct. -/
theorem sum_swap_filter {α β : Type} (C : List α) (k : α → Nat) (p : α → Bool)
    (I : List β) (key : β → Nat) (f : β → Int) (hnd : (C.map k).Nodup) :
    ((C.filter p).map (fun c => ((I.filter (fun i => key i == k c)).map f).sum)).sum =
      (I.map (fun i => if C.any (fun c => p c && (key i == k c)) then f i else 0)).sum := by
  induction I with
  | nil =>
    simp
  | cons i I ih =>
    have hsplit : ∀ c : α,
        (((i :: I).filter (fun j => key j == k c)).map f).sum =
          (if key i == k c then f i else 0) +
            ((I.filter (fun j => key j == k c)).map f).sum := by
      intro c
      by_cases hc : (key i == k c) = true
      · simp [List.filter_cons, hc]
      · have hc2 : (key i == k c) = false := by simpa using hc
        have hne : key i ≠ k c := beq_eq_false_iff_ne.mp hc2
        simp [List.filter_cons, hc2, hne]
    calc ((C.filter p).map
            (fun c => (((i :: I).filter (fun j => key j == k c)).map f).sum)).sum
        = ((C.filter p).map (fun c =>
            (if key i == k c then f i else 0) +
              ((I.filter (fun j => key j == k c)).map f).sum)).sum := by
          apply congrArg
          apply List.map_congr_left
          intro c _
          exact hsplit c
      _ = ((C.filter p).map (fun c => if key i == k c then f i else 0)).sum +
            ((C.filter p).map (fun c => ((I.filter (fun j => key j == k c)).map f).sum)).sum := by
          exact sum_map_add_split _ _ _
      _ = (C.map (fun c => if p c && (key i == k c) then f i else 0)).sum +
            (I.map (fun j => if C.any (fun c => p c && (key j == k c)) then f j else 0)).sum := by
          rw [sum_map_filter_ite, ih]
      _ = (if C.any (fun c => p c && (key i == k c)) then f i else 0) +
            (I.map (fun j => if C.any (fun c => p c && (key j == k c)) then f j else 0)).sum := by
          rw [sum_if_unique_key C k p (key i) (f i) hnd]
      _ = (((i :: I)).map (fun j => if C.any (fun c => p c && (key j == k c)) then f j else 0)).sum := by
          simp

/-- C1: the claim states that re-processing an identical valid row leaves
exactly one client, one invoice and one transaction and increments the
updated counters on the second pass.  The code violates this: because the
data loader reads length and insertId off the record returned by
executeQuery (where both are undefined), the lookup branch is never taken,
so the second pass increments the created counters again and the updated
counters stay zero; moreover the invoice and transaction INSERTs always
carry an undefined foreign key bind parameter and are silently rejected,
so after both passes the store holds one client but no invoice and no
transaction. -/
theorem c1_second_import_increments_created_again :
    secondRun.2.clients_created = 1 ∧ secondRun.2.clients_updated = 0 ∧
    secondRun.2.invoices_created = 1 ∧ secondRun.2.invoices_updated = 0 ∧
    secondRun.2.transactions_created = 1 ∧ secondRun.2.transactions_updated = 0 ∧
    secondRun.1.clients.length = 1 ∧ secondRun.1.invoices = [] ∧
    secondRun.1.transactions = [] := by decide

/-- C2: the claim states that a storage-level error in a resolve/create
step is recorded as a row-scoped message Row n: message.  The code
violates this: executeQuery converts every storage error into a returned
record with success set to false instead of throwing, so the catch block
of processCSVData never fires for storage errors.  On the first import of
the scenario row the invoice INSERT is rejected by the storage layer (its
clientId bind parameter is undefined), the step is nevertheless counted as
processed and created, and the error list stays empty. -/
theorem c2_storage_error_swallowed :
    (invoiceInsertAttempt.2.get "success").truthy = false ∧
    firstRun.2.errors = [] ∧
    firstRun.1.invoices = [] ∧
    firstRun.2.invoices_processed = 1 ∧
    firstRun.2.invoices_created = 1 := by decide

/-- C7: on a fresh store the platform named by the row is indeed created
with category DIGITAL_WALLET (first conjunct), and an existing platform is
never modified (second conjunct, the store is returned unchanged); but the
existing surrogate id is not reused: the length check on the executeQuery
record is always false, so the code attempts a duplicate INSERT, reads
insertId off the returned record, and obtains undefined instead of the
existing id 1 (third conjunct, the platformId value computed on the
existing-platform path); the subsequent transaction INSERT is rejected on
that undefined bind parameter, so no transaction row is ever linked to the
existing platform (second conjunct, transactions stay empty even though a
valid invoice id 1 is supplied). -/
theorem c7_platform_resolution :
    (processTransaction {} specRow (JSVal.num (.int 1))).1.platforms =
      [{ platform_id := 1, platform_name := "Nequi", platform_type := "DIGITAL_WALLET",
         is_active := true }] ∧
    (processTransaction seededStore specRow (JSVal.num (.int 1))).1 = seededStore ∧
    ((executeQuery seededStore (.insertPlatform (fieldVal specRow.platform_name)
        (.str "DIGITAL_WALLET"))).2.get "insertId").isUndefined = true := by decide

/-- Length of the defect list: one entry per failed check of
validateRow. -/
theorem validateRow_length (row : CsvRow) (n : Nat) :
    (validateRow row n).length =
      (if missingClientInfo row then 1 else 0) + (if missingInvoiceNumber row then 1 else 0)
      + (if missingTransactionReference row then 1 else 0)
      + (if missingPlatformName row then 1 else 0)
      + (if invalidTotalAmount row then 1 else 0) + (if invalidPaidAmount row then 1 else 0)
      + (if invalidTransactionAmount row then 1 else 0) := by
  cases h1 : missingClientInfo row <;> cases h2 : missingInvoiceNumber row <;>
    cases h3 : missingTransactionReference row <;> cases h4 : missingPlatformName row <;>
    cases h5 : invalidTotalAmount row <;> cases h6 : invalidPaidAmount row <;>
    cases h7 : invalidTransactionAmount row <;>
    simp [validateRow, h1, h2, h3, h4, h5, h6, h7]

/-- C4: a row missing exactly one of the six required fields (the three
client fields counting as one check), all other required fields present
and all amount fields absent or numeric, produces exactly one validation
defect; the loop body then skips the row, leaving the store untouched and
every counter unchanged, with only that defect appended to the error
list. -/
theorem c4_missing_field_one_defect_no_writes (st : Store) (stats : Stats) (row : CsvRow)
    (n : Nat)
    (hone : (if missingClientInfo row then 1 else 0) + (if missingInvoiceNumber row then 1 else 0)
      + (if missingTransactionReference row then 1 else 0)
      + (if missingPlatformName row then 1 else 0) = 1)
    (ht : invalidTotalAmount row = false) (hp : invalidPaidAmount row = false)
    (hx : invalidTransactionAmount row = false) :
    ∃ m, validateRow row n = [m] ∧
      processRowStep st stats row n = (st, { stats with errors := stats.errors ++ [m] }) := by
  have hlen : (validateRow row n).length = 1 := by
    rw [validateRow_length, ht, hp, hx]
    simpa using hone
  rcases List.length_eq_one.mp hlen with ⟨m, hm⟩
  refine ⟨m, hm, ?_⟩
  unfold processRowStep
  rw [hm]
  simp

/-- Counter updates never touch the error list. -/
theorem bumpClient_errors (s : Stats) (b : Bool) : (bumpClient s b).errors = s.errors := by
  cases b <;> simp [bumpClient]

/-- Counter updates never touch the error list. -/
theorem bumpInvoice_errors (s : Stats) (b : Bool) : (bumpInvoice s b).errors = s.errors := by
  cases b <;> simp [bumpInvoice]

/-- Counter updates never touch the error list. -/
theorem bumpTransaction_errors (s : Stats) (b : Bool) :
    (bumpTransaction s b).errors = s.errors := by
  cases b <;> simp [bumpTransaction]

/-- The loop body only appends to the error list. -/
theorem processRowStep_errors_mono (st : Store) (stats : Stats) (row : CsvRow) (n : Nat) :
    ∃ tail, (processRowStep st stats row n).2.errors = stats.errors ++ tail := by
  unfold processRowStep
  by_cases hv : (validateRow row n).length > 0
  · exact ⟨validateRow row n, by simp [hv]⟩
  · rcases hc : processClient st row with ⟨st1, res1⟩
    cases res1 with
    | error m =>
      exact ⟨["Row " ++ toString n ++ ": " ++ m], by simp [hv, hc, pushRowError]⟩
    | ok v =>
      rcases hi : processInvoice st1 row (v.get "clientId") with ⟨st2, res2⟩
      cases res2 with
      | error m =>
        exact ⟨["Row " ++ toString n ++ ": " ++ m], by
          simp [hv, hc, hi, pushRowError, bumpClient_errors]⟩
      | ok w =>
        rcases htx : processTransaction st2 row (w.get "invoiceId") with ⟨st3, res3⟩
        cases res3 with
        | error m =>
          exact ⟨["Row " ++ toString n ++ ": " ++ m], by
            simp [hv, hc, hi, htx, pushRowError, bumpClient_errors, bumpInvoice_errors]⟩
        | ok u =>
          exact ⟨[], by
            simp [hv, hc, hi, htx, bumpClient_errors, bumpInvoice_errors,
              bumpTransaction_errors]⟩

/-- The loop only appends to the error list. -/
theorem processRows_errors_mono (data : List CsvRow) :
    ∀ (st : Store) (stats : Stats) (i : Nat),
      ∃ tail, (processRows st stats data i).2.errors = stats.errors ++ tail := by
  induction data with
  | nil => exact fun st stats i => ⟨[], by simp [processRows]⟩
  | cons row rest ih =>
    intro st stats i
    rcases processRowStep_errors_mono st stats row (i + 2) with ⟨t1, h1⟩
    rcases ih (processRowStep st stats row (i + 2)).1 (processRowStep st stats row (i + 2)).2
      (i + 1) with ⟨t2, h2⟩
    exact ⟨t1 ++ t2, by simp [processRows, h2, h1]⟩

/-- A row with a missing invoice number contributes its defect, labelled
with the given row number, to the error list of the loop body. -/
theorem processRowStep_missing_invoice_mem (st : Store) (stats : Stats) (row : CsvRow)
    (n : Nat) (hm : missingInvoiceNumber row = true) :
    ("Row " ++ toString n ++ ": Missing invoice number") ∈
      (processRowStep st stats row n).2.errors := by
  have hmem : ("Row " ++ toString n ++ ": Missing invoice number") ∈ validateRow row n := by
    unfold validateRow
    rw [hm]
    simp
  have hlen : (validateRow row n).length > 0 := by
    apply List.length_pos.mpr
    intro hnil
    rw [hnil] at hmem
    simp at hmem
  unfold processRowStep
  rw [if_pos hlen]
  exact List.mem_append.mpr (Or.inr hmem)

/-- A row with a missing invoice number at zero-based position i of the
remaining data is reported with row number i0 + i + 2, where i0 is the
zero-based index of the first remaining row. -/
theorem processRows_missing_invoice_mem (data : List CsvRow) :
    ∀ (i : Nat) (h : i < data.length) (st : Store) (stats : Stats) (i0 : Nat),
      missingInvoiceNumber (data.get ⟨i, h⟩) = true →
      ("Row " ++ toString (i0 + i + 2) ++ ": Missing invoice number") ∈
        (processRows st stats data i0).2.errors := by
  induction data with
  | nil => intro i h; exact absurd h (Nat.not_lt_zero i)
  | cons row rest ih =>
    intro i h st stats i0 hm
    cases i with
    | zero =>
      have hmem := processRowStep_missing_invoice_mem st stats row (i0 + 2)
        (by simpa using hm)
      rcases processRows_errors_mono rest (processRowStep st stats row (i0 + 2)).1
        (processRowStep st stats row (i0 + 2)).2 (i0 + 1) with ⟨tail, htail⟩
      have : ("Row " ++ toString (i0 + 2) ++ ": Missing invoice number") ∈
          (processRows (processRowStep st stats row (i0 + 2)).1
            (processRowStep st stats row (i0 + 2)).2 rest (i0 + 1)).2.errors := by
        rw [htail]
        exact List.mem_append.mpr (Or.inl hmem)
      simpa [processRows] using this
    | succ j =>
      have h2 : j < rest.length := by
        simp [List.length_cons] at h
        omega
      have hm2 : missingInvoiceNumber (rest.get ⟨j, h2⟩) = true := by simpa using hm
      have hrec := ih j h2 (processRowStep st stats row (i0 + 2)).1
        (processRowStep st stats row (i0 + 2)).2 (i0 + 1) hm2
      have harith : i0 + 1 + j + 2 = i0 + (j + 1) + 2 := by omega
      rw [harith] at hrec
      simpa [processRows] using hrec

/-- C8: the i-th data row (zero-based) is reported as row i + 2 in the
error messages of processCSVData; shown for the missing-invoice-number
defect of the row validator. -/
theorem c8_row_numbering (st : Store) (data : List CsvRow) (i : Nat) (h : i < data.length)
    (hm : missingInvoiceNumber (data.get ⟨i, h⟩) = true) :
    ("Row " ++ toString (i + 2) ++ ": Missing invoice number") ∈
      (processCSVData st data).2.errors := by
  have := processRows_missing_invoice_mem data i h st {} 0 hm
  simpa [processCSVData] using this

/-- The loop body preserves the counter balance: each entity step either
increments one of created and updated together with processed, or (on a
validation defect or a caught error) leaves the remaining counters
untouched. -/
theorem processRowStep_balanced (st : Store) (stats : Stats) (row : CsvRow) (n : Nat)
    (hb : statsBalanced stats) : statsBalanced (processRowStep st stats row n).2 := by
  rcases hb with ⟨h1, h2, h3⟩
  unfold processRowStep
  by_cases hv : (validateRow row n).length > 0
  · simpa [hv, statsBalanced] using ⟨h1, h2, h3⟩
  · rcases hc : processClient st row with ⟨st1, res1⟩
    cases res1 with
    | error m => simpa [hv, hc, pushRowError, statsBalanced] using ⟨h1, h2, h3⟩
    | ok v =>
      rcases hi : processInvoice st1 row (v.get "clientId") with ⟨st2, res2⟩
      cases res2 with
      | error m =>
        cases hcr : (v.get "created").truthy <;>
          simp [hv, hc, hi, hcr, pushRowError, bumpClient, statsBalanced] <;> omega
      | ok w =>
        rcases htx : processTransaction st2 row (w.get "invoiceId") with ⟨st3, res3⟩
        cases res3 with
        | error m =>
          cases hcr : (v.get "created").truthy <;>
            cases hir : (w.get "created").truthy <;>
            simp [hv, hc, hi, htx, hcr, hir, pushRowError, bumpClient, bumpInvoice,
              statsBalanced] <;> omega
        | ok u =>
          cases hcr : (v.get "created").truthy <;>
            cases hir : (w.get "created").truthy <;>
            cases htr : (u.get "created").truthy <;>
            simp [hv, hc, hi, htx, hcr, hir, htr, bumpClient, bumpInvoice, bumpTransaction,
              statsBalanced] <;> omega

/-- The loop preserves the counter balance. -/
theorem processRows_balanced (data : List CsvRow) :
    ∀ (st : Store) (stats : Stats) (i : Nat), statsBalanced stats →
      statsBalanced (processRows st stats data i).2 := by
  induction data with
  | nil => intro st stats i hb; simpa [processRows] using hb
  | cons row rest ih =>
    intro st stats i hb
    have hstep := processRowStep_balanced st stats row (i + 2) hb
    simpa [processRows] using
      ih (processRowStep st stats row (i + 2)).1 (processRowStep st stats row (i + 2)).2
        (i + 1) hstep

/-- C9: after every run of processCSVData, for each entity kind the
processed counter equals the sum of the created and updated counters. -/
theorem c9_processed_eq_created_plus_updated (st : Store) (data : List CsvRow) :
    (processCSVData st data).2.clients_processed =
        (processCSVData st data).2.clients_created +
          (processCSVData st data).2.clients_updated ∧
    (processCSVData st data).2.invoices_processed =
        (processCSVData st data).2.invoices_created +
          (processCSVData st data).2.invoices_updated ∧
    (processCSVData st data).2.transactions_processed =
        (processCSVData st data).2.transactions_created +
          (processCSVData st data).2.transactions_updated :=
  processRows_balanced data st {} 0 ⟨rfl, rfl, rfl⟩

/-- Witness for the single-defect property: a row missing only the
platform name. -/
theorem c4_missing_field_witness :
    ((if missingClientInfo c4Row then 1 else 0) + (if missingInvoiceNumber c4Row then 1 else 0)
      + (if missingTransactionReference c4Row then 1 else 0)
      + (if missingPlatformName c4Row then 1 else 0) = 1) ∧
    ∃ m, validateRow c4Row 2 = [m] ∧
      processRowStep {} {} c4Row 2 =
        ({}, { ({} : Stats) with errors := ({} : Stats).errors ++ [m] }) :=
  ⟨by decide,
   c4_missing_field_one_defect_no_writes {} {} c4Row 2 (by decide) (by decide) (by decide)
     (by decide)⟩

/-- Witness for the row numbering: the second data row (index 1) of the
witness batch is missing its invoice number and is reported as row 3. -/
theorem c8_row_numbering_witness :
    (1 : Nat) < c8Data.length ∧
    ("Row " ++ toString (1 + 2) ++ ": Missing invoice number") ∈
      (processCSVData {} c8Data).2.errors :=
  ⟨by decide, c8_row_numbering {} c8Data 1 (by decide) (by decide)⟩

/-- With no clients the total-payments query returns no rows. -/
theorem totalPaymentsRows_empty (st : Store) (h : st.clients = []) :
    totalPaymentsRows st = [] := by
  simp [totalPaymentsRows, h, sortBy]

/-- One fold step always increments the total count of the entry. -/
theorem updatePlatStat_total (s : PlatStat) (r : TxRow) :
    (updatePlatStat s r).total_transactions = s.total_transactions + 1 := by
  unfold updatePlatStat
  by_cases h1 : (r.status == "COMPLETED") = true
  · simp [h1]
  · by_cases h2 : (r.status == "PENDING") = true
    · simp [h1, h2]
    · by_cases h3 : (r.status == "FAILED") = true <;> simp [h1, h2, h3]

/-- One fold step always adds the row amount to the entry. -/
theorem updatePlatStat_amount (s : PlatStat) (r : TxRow) :
    (updatePlatStat s r).total_amount = s.total_amount + r.amount := by
  unfold updatePlatStat
  by_cases h1 : (r.status == "COMPLETED") = true
  · simp [h1]
  · by_cases h2 : (r.status == "PENDING") = true
    · simp [h1, h2]
    · by_cases h3 : (r.status == "FAILED") = true <;> simp [h1, h2, h3]

/-- One fold step increments the completed bucket exactly for a COMPLETED
row. -/
theorem updatePlatStat_completed (s : PlatStat) (r : TxRow) :
    (updatePlatStat s r).completed_transactions =
      s.completed_transactions + (if (r.status == "COMPLETED") = true then 1 else 0) := by
  unfold updatePlatStat
  by_cases h1 : (r.status == "COMPLETED") = true
  · simp [h1]
  · by_cases h2 : (r.status == "PENDING") = true
    · simp [h1, h2]
    · by_cases h3 : (r.status == "FAILED") = true <;> simp [h1, h2, h3]

/-- One fold step increments the pending bucket exactly for a PENDING
row. -/
theorem updatePlatStat_pending (s : PlatStat) (r : TxRow) :
    (updatePlatStat s r).pending_transactions =
      s.pending_transactions + (if (r.status == "PENDING") = true then 1 else 0) := by
  unfold updatePlatStat
  by_cases h1 : (r.status == "COMPLETED") = true
  · have hps : (r.status == "PENDING") = false := by
      rw [beq_iff_eq.mp h1]
      decide
    simp [h1, hps]
  · by_cases h2 : (r.status == "PENDING") = true
    · simp [h1, h2]
    · by_cases h3 : (r.status == "FAILED") = true <;> simp [h1, h2, h3]

/-- One fold step increments the failed bucket exactly for a FAILED
row. -/
theorem updatePlatStat_failed (s : PlatStat) (r : TxRow) :
    (updatePlatStat s r).failed_transactions =
      s.failed_transactions + (if (r.status == "FAILED") = true then 1 else 0) := by
  unfold updatePlatStat
  by_cases h1 : (r.status == "COMPLETED") = true
  · have hfs : (r.status == "FAILED") = false := by
      rw [beq_iff_eq.mp h1]
      decide
    simp [h1, hfs]
  · by_cases h2 : (r.status == "PENDING") = true
    · have hfs : (r.status == "FAILED") = false := by
        rw [beq_iff_eq.mp h2]
        decide
      simp [h1, h2, hfs]
    · by_cases h3 : (r.status == "FAILED") = true <;> simp [h1, h2, h3]

/-- Folding a group into an entry adds the group size to the total
count. -/
theorem applyRows_total (rs : List TxRow) :
    ∀ s : PlatStat, (applyRows s rs).total_transactions = s.total_transactions + rs.length := by
  induction rs with
  | nil => intro s; simp [applyRows]
  | cons r rs ih =>
    intro s
    have hstep : applyRows s (r :: rs) = applyRows (updatePlatStat s r) rs := rfl
    rw [hstep, ih, updatePlatStat_total]
    simp [List.length_cons]
    omega

/-- Folding a group into an entry adds the group amounts to the amount. -/
theorem applyRows_amount (rs : List TxRow) :
    ∀ s : PlatStat,
      (applyRows s rs).total_amount = s.total_amount + (rs.map (fun r => r.amount)).sum := by
  induction rs with
  | nil => intro s; simp [applyRows]
  | cons r rs ih =>
    intro s
    have hstep : applyRows s (r :: rs) = applyRows (updatePlatStat s r) rs := rfl
    rw [hstep, ih, updatePlatStat_amount]
    simp
    ring

/-- Folding a group into an entry adds the COMPLETED rows of the group to
the completed bucket. -/
theorem applyRows_completed (rs : List TxRow) :
    ∀ s : PlatStat,
      (applyRows s rs).completed_transactions = s.completed_transactions +
        (rs.filter (fun r => r.status == "COMPLETED")).length := by
  induction rs with
  | nil => intro s; simp [applyRows]
  | cons r rs ih =>
    intro s
    have hstep : applyRows s (r :: rs) = applyRows (updatePlatStat s r) rs := rfl
    rw [hstep, ih, updatePlatStat_completed, List.filter_cons]
    by_cases h : (r.status == "COMPLETED") = true <;> simp [h] <;> omega

/-- Folding a group into an entry adds the PENDING rows of the group to
the pending bucket. -/
theorem applyRows_pending (rs : List TxRow) :
    ∀ s : PlatStat,
      (applyRows s rs).pending_transactions = s.pending_transactions +
        (rs.filter (fun r => r.status == "PENDING")).length := by
  induction rs with
  | nil => intro s; simp [applyRows]
  | cons r rs ih =>
    intro s
    have hstep : applyRows s (r :: rs) = applyRows (updatePlatStat s r) rs := rfl
    rw [hstep, ih, updatePlatStat_pending, List.filter_cons]
    by_cases h : (r.status == "PENDING") = true <;> simp [h] <;> omega

/-- Folding a group into an entry adds the FAILED rows of the group to the
failed bucket. -/
theorem applyRows_failed (rs : List TxRow) :
    ∀ s : PlatStat,
      (applyRows s rs).failed_transactions = s.failed_transactions +
        (rs.filter (fun r => r.status == "FAILED")).length := by
  induction rs with
  | nil => intro s; simp [applyRows]
  | cons r rs ih =>
    intro s
    have hstep : applyRows s (r :: rs) = applyRows (updatePlatStat s r) rs := rfl
    rw [hstep, ih, updatePlatStat_failed, List.filter_cons]
    by_cases h : (r.status == "FAILED") = true <;> simp [h] <;> omega

/-- Effect of adding one row on a lookup into the keyed statistics: the
entry of the row platform is created or updated, every other entry is
untouched. -/
theorem addToPlatStats_lookup (acc : List (String × PlatStat)) (r : TxRow) (name : String) :
    (addToPlatStats acc r).lookup name =
      if (r.platform_name == name) = true then
        some (updatePlatStat ((acc.lookup name).getD (emptyPlatStat name)) r)
      else acc.lookup name := by
  induction acc with
  | nil =>
    by_cases h : r.platform_name = name
    · subst h
      simp [addToPlatStats, List.lookup_cons]
    · have h1 : (r.platform_name == name) = false := beq_eq_false_iff_ne.mpr h
      have h2 : (name == r.platform_name) = false :=
        beq_eq_false_iff_ne.mpr (fun e => h e.symm)
      simp [addToPlatStats, List.lookup_cons, h1, h2]
  | cons e acc ih =>
    rcases e with ⟨n, s⟩
    by_cases hn : n = r.platform_name
    · subst hn
      by_cases hm : r.platform_name = name
      · subst hm
        simp [addToPlatStats, List.lookup_cons]
      · have h1 : (r.platform_name == name) = false := beq_eq_false_iff_ne.mpr hm
        have h2 : (name == r.platform_name) = false :=
          beq_eq_false_iff_ne.mpr (fun e => hm e.symm)
        simp [addToPlatStats, List.lookup_cons, h1, h2]
    · have h0 : (n == r.platform_name) = false :=
        beq_eq_false_iff_ne.mpr hn
      by_cases hm : name = n
      · subst hm
        have h1 : (r.platform_name == name) = false :=
          beq_eq_false_iff_ne.mpr (fun e => hn e.symm)
        have h3 : (name == name) = true := beq_self_eq_true name
        simp [addToPlatStats, List.lookup_cons, h0, h1, h3]
      · have h2 : (name == n) = false := beq_eq_false_iff_ne.mpr hm
        simp [addToPlatStats, List.lookup_cons, h0, h2, ih]

/-- Lookup into the folded per-platform statistics, characterized by the
group of rows carrying the looked-up platform name. -/
theorem platformStatsFold_lookup_gen (rows : List TxRow) :
    ∀ (acc : List (String × PlatStat)) (name : String),
      (rows.foldl addToPlatStats acc).lookup name =
        lookupSpec name (acc.lookup name) (rows.filter (fun r => r.platform_name == name)) := by
  induction rows with
  | nil =>
    intro acc name
    rcases h : acc.lookup name with _ | s <;> simp [lookupSpec, h, applyRows]
  | cons r rows ih =>
    intro acc name
    rw [List.foldl_cons, ih (addToPlatStats acc r) name, addToPlatStats_lookup,
      List.filter_cons]
    by_cases hm : (r.platform_name == name) = true
    · rw [if_pos hm, if_pos hm]
      rcases h : acc.lookup name with _ | s <;> simp [lookupSpec, h, applyRows]
    · rw [if_neg hm, if_neg hm]

/-- Rows drawn from the four-valued status enumeration are partitioned by
the four status filters. -/
theorem status_filter_partition (rows : List TxRow)
    (h : ∀ r ∈ rows, r.status = "PENDING" ∨ r.status = "COMPLETED" ∨
      r.status = "FAILED" ∨ r.status = "CANCELLED") :
    (rows.filter (fun r => r.status == "COMPLETED")).length
      + (rows.filter (fun r => r.status == "PENDING")).length
      + (rows.filter (fun r => r.status == "FAILED")).length
      + (rows.filter (fun r => r.status == "CANCELLED")).length = rows.length := by
  induction rows with
  | nil => simp
  | cons r rows ih =>
    have hr := h r (List.mem_cons_self r rows)
    have ihh := ih (fun x hx => h x (List.mem_cons_of_mem r hx))
    rcases hr with h0 | h0 | h0 | h0 <;>
      simp +decide only [List.filter_cons, h0, List.length_cons, if_true, if_false] <;>
      omega

/-- A filter keeps a positive number of elements exactly when some element
satisfies the predicate. -/
theorem filter_length_pos_iff {α : Type} (l : List α) (q : α → Bool) :
    0 < (l.filter q).length ↔ ∃ x ∈ l, q x = true := by
  constructor
  · intro hpos
    rcases List.exists_mem_of_length_pos hpos with ⟨x, hx⟩
    rcases List.mem_filter.mp hx with ⟨hmem, hq⟩
    exact ⟨x, hmem, hq⟩
  · rintro ⟨x, hmem, hq⟩
    apply List.length_pos.mpr
    intro hnil
    exact (List.filter_eq_nil_iff.mp hnil) x hmem hq

/-- A conditional sum collapses to the sum over the filtered list. -/
theorem sum_map_ite_eq_filter {α : Type} (l : List α) (q : α → Bool) (f : α → Int) :
    (l.map (fun x => if q x then f x else 0)).sum = ((l.filter q).map f).sum := by
  induction l with
  | nil => simp
  | cons x xs ih =>
    by_cases h : q x = true
    · simp [List.filter_cons, h, ih]
    · have h2 : q x = false := by simpa using h
      simp [List.filter_cons, h2, ih]

/-- C3 (amended to the active-client scope of the query): with distinct
client and invoice surrogate ids, the sum of total_paid over the reported
rows equals the sum of the amounts of the COMPLETED transactions whose
invoice belongs to an active client, and every active client none of whose
invoices carries a COMPLETED transaction is reported with total_paid
equal to zero. -/
theorem c3_total_paid_active_clients (st : Store)
    (hc : (st.clients.map (fun c => c.client_id)).Nodup)
    (hi : (st.invoices.map (fun i => i.invoice_id)).Nodup) :
    ((totalPaymentsRows st).map (fun r => r.total_paid)).sum = activeCompletedSum st
    ∧ ∀ c ∈ st.clients, c.is_active = true →
        (∀ t ∈ st.transactions, t.status = "COMPLETED" →
          ¬∃ i ∈ st.invoices, i.invoice_id = t.invoice_id ∧ i.client_id = c.client_id) →
        ∃ r ∈ totalPaymentsRows st, r.client_id = c.client_id ∧ r.total_paid = 0 := by
  constructor
  · have hA : ((totalPaymentsRows st).map (fun r => r.total_paid)).sum
        = ((st.clients.filter (fun c => c.is_active)).map (fun c =>
            ((tpJoinRows st c).map (fun t => t.amount)).sum)).sum := by
      unfold totalPaymentsRows
      rw [sum_map_sortBy, List.map_map]
      rfl
    have hC : ∀ c : ClientRec, ((tpJoinRows st c).map (fun t => t.amount)).sum
        = ((st.invoices.filter (fun i => i.client_id == c.client_id)).map (fun i =>
            ((st.transactions.filter (fun t =>
              (t.invoice_id == i.invoice_id) && (t.status == "COMPLETED"))).map
              (fun t => t.amount)).sum)).sum := fun c =>
      sum_map_flatMap _ _ _
    have hB : ((st.clients.filter (fun c => c.is_active)).map (fun c =>
            ((tpJoinRows st c).map (fun t => t.amount)).sum)).sum
        = ((st.clients.filter (fun c => c.is_active)).map (fun c =>
            ((st.invoices.filter (fun i => i.client_id == c.client_id)).map (fun i =>
              ((st.transactions.filter (fun t =>
                (t.invoice_id == i.invoice_id) && (t.status == "COMPLETED"))).map
                (fun t => t.amount)).sum)).sum)).sum :=
      congrArg List.sum (List.map_congr_left (fun c _ => hC c))
    have hD : ((st.clients.filter (fun c => c.is_active)).map (fun c =>
            ((st.invoices.filter (fun i => i.client_id == c.client_id)).map (fun i =>
              ((st.transactions.filter (fun t =>
                (t.invoice_id == i.invoice_id) && (t.status == "COMPLETED"))).map
                (fun t => t.amount)).sum)).sum)).sum
        = (st.invoices.map (fun i =>
            if st.clients.any (fun c => c.is_active && (i.client_id == c.client_id)) then
              ((st.transactions.filter (fun t =>
                (t.invoice_id == i.invoice_id) && (t.status == "COMPLETED"))).map
                (fun t => t.amount)).sum
            else 0)).sum :=
      sum_swap_filter st.clients (fun c => c.client_id) (fun c => c.is_active) st.invoices
        (fun i => i.client_id)
        (fun i => ((st.transactions.filter (fun t =>
          (t.invoice_id == i.invoice_id) && (t.status == "COMPLETED"))).map
          (fun t => t.amount)).sum) hc
    have hE : (st.invoices.map (fun i =>
            if st.clients.any (fun c => c.is_active && (i.client_id == c.client_id)) then
              ((st.transactions.filter (fun t =>
                (t.invoice_id == i.invoice_id) && (t.status == "COMPLETED"))).map
                (fun t => t.amount)).sum
            else 0)).sum
        = ((st.invoices.filter (fun i =>
              st.clients.any (fun c => c.is_active && (i.client_id == c.client_id)))).map
            (fun i => ((st.transactions.filter (fun t =>
              (t.invoice_id == i.invoice_id) && (t.status == "COMPLETED"))).map
              (fun t => t.amount)).sum)).sum :=
      sum_map_ite_eq_filter _ _ _
    have hF : ∀ i : InvoiceRec, ((st.transactions.filter (fun t =>
          (t.invoice_id == i.invoice_id) && (t.status == "COMPLETED"))).map
          (fun t => t.amount)).sum
        = (((st.transactions.filter (fun t => t.status == "COMPLETED")).filter
            (fun t => t.invoice_id == i.invoice_id)).map (fun t => t.amount)).sum := by
      intro i
      rw [List.filter_filter]
    have hG : ((st.invoices.filter (fun i =>
              st.clients.any (fun c => c.is_active && (i.client_id == c.client_id)))).map
            (fun i => ((st.transactions.filter (fun t =>
              (t.invoice_id == i.invoice_id) && (t.status == "COMPLETED"))).map
              (fun t => t.amount)).sum)).sum
        = ((st.invoices.filter (fun i =>
              st.clients.any (fun c => c.is_active && (i.client_id == c.client_id)))).map
            (fun i => (((st.transactions.filter (fun t => t.status == "COMPLETED")).filter
              (fun t => t.invoice_id == i.invoice_id)).map (fun t => t.amount)).sum)).sum :=
      congrArg List.sum (List.map_congr_left (fun i _ => hF i))
    have hH : ((st.invoices.filter (fun i =>
              st.clients.any (fun c => c.is_active && (i.client_id == c.client_id)))).map
            (fun i => (((st.transactions.filter (fun t => t.status == "COMPLETED")).filter
              (fun t => t.invoice_id == i.invoice_id)).map (fun t => t.amount)).sum)).sum
        = ((st.transactions.filter (fun t => t.status == "COMPLETED")).map (fun t =>
            if st.invoices.any (fun i =>
                (st.clients.any (fun c => c.is_active && (i.client_id == c.client_id)))
                  && (t.invoice_id == i.invoice_id)) then
              t.amount
            else 0)).sum :=
      sum_swap_filter st.invoices (fun i => i.invoice_id)
        (fun i => st.clients.any (fun c => c.is_active && (i.client_id == c.client_id)))
        (st.transactions.filter (fun t => t.status == "COMPLETED")) (fun t => t.invoice_id)
        (fun t => t.amount) hi
    have hI : ((st.transactions.filter (fun t => t.status == "COMPLETED")).map (fun t =>
            if st.invoices.any (fun i =>
                (st.clients.any (fun c => c.is_active && (i.client_id == c.client_id)))
                  && (t.invoice_id == i.invoice_id)) then
              t.amount
            else 0)).sum
        = (((st.transactions.filter (fun t => t.status == "COMPLETED")).filter (fun t =>
            st.invoices.any (fun i =>
              (st.clients.any (fun c => c.is_active && (i.client_id == c.client_id)))
                && (t.invoice_id == i.invoice_id)))).map (fun t => t.amount)).sum :=
      sum_map_ite_eq_filter _ _ _
    have hJ : ((st.transactions.filter (fun t => t.status == "COMPLETED")).filter (fun t =>
            st.invoices.any (fun i =>
              (st.clients.any (fun c => c.is_active && (i.client_id == c.client_id)))
                && (t.invoice_id == i.invoice_id))))
        = st.transactions.filter (fun t => (t.status == "COMPLETED") &&
            st.invoices.any (fun i => ownerIsActive st i && (t.invoice_id == i.invoice_id))) := by
      rw [List.filter_filter]
      apply List.filter_congr
      intro t _
      exact Bool.and_comm _ _
    rw [hA, hB, hD, hE, hG, hH, hI, hJ]
    rfl
  · intro c hc2 hact hnone
    have hjoin : tpJoinRows st c = [] := by
      apply List.eq_nil_iff_forall_not_mem.mpr
      intro t hmem
      rcases List.mem_flatMap.mp hmem with ⟨i, hi2, hti⟩
      rcases List.mem_filter.mp hti with ⟨htmem, htcond⟩
      rcases List.mem_filter.mp hi2 with ⟨himem, hicond⟩
      rcases Bool.and_eq_true_iff.mp htcond with ⟨hinv, hstat⟩
      exact hnone t htmem (beq_iff_eq.mp hstat)
        ⟨i, himem, (beq_iff_eq.mp hinv).symm, beq_iff_eq.mp hicond⟩
    have hmemrow : (⟨c.client_id, c.client_code, c.first_name ++ " " ++ c.last_name,
        ((tpJoinRows st c).map (fun t => t.amount)).sum, (tpJoinRows st c).length,
        maxDate ((tpJoinRows st c).map (fun t => t.transaction_date))⟩ : TPRow) ∈
        totalPaymentsRows st := by
      unfold totalPaymentsRows
      rw [mem_sortBy]
      apply List.mem_map_of_mem
      exact List.mem_filter.mpr ⟨hc2, hact⟩
    exact ⟨_, hmemrow, rfl, by rw [hjoin]; rfl⟩

/-- Counterexample to C3 as stated: in a store whose only client is
inactive (soft-deleted) but owns a COMPLETED transaction of amount 100,
the report is empty, so the sum of total_paid over the reported clients
(0) differs from the sum of the amounts of all COMPLETED transactions in
the store (100), and the client appears in no report row at all. -/
theorem c3_inactive_client_counterexample :
    ((totalPaymentsRows c3CexStore).map (fun r => r.total_paid)).sum ≠
      completedSumStore c3CexStore := by decide

/-- Witness for the amended total-paid property at a store with one active
client holding a COMPLETED transaction and one active client with none. -/
theorem c3_total_paid_witness :
    (c3WitStore.clients.map (fun c => c.client_id)).Nodup ∧
    (c3WitStore.invoices.map (fun i => i.invoice_id)).Nodup ∧
    ((totalPaymentsRows c3WitStore).map (fun r => r.total_paid)).sum =
      activeCompletedSum c3WitStore ∧
    ∃ r ∈ totalPaymentsRows c3WitStore, r.client_id = c3Client2.client_id ∧
      r.total_paid = 0 :=
  ⟨by decide, by decide,
   (c3_total_paid_active_clients c3WitStore (by decide) (by decide)).1,
   (c3_total_paid_active_clients c3WitStore (by decide) (by decide)).2 c3Client2 (by decide)
     (by decide) (by decide)⟩

/-- C5: the pending-invoices query cannot be executed against the schema
at all: its text references the invoice columns invoice_date and
due_date, which the invoices table of database/schema.sql does not
define, so identifier resolution refuses the statement before any row is
read; executeQuery then reports failure and the route answers its error
branch with no report, so no invoice of any status is ever included —
contrary to the claimed inclusion of every PENDING, PARTIAL or OVERDUE
invoice of an active client. -/
theorem c5_pending_invoices_query_unresolvable :
    resolveInvoiceColumns pendingInvoicesInvoiceColumnRefs =
      .error "Unknown column i.invoice_date" := rfl

/-- C6: only the total-payments query tolerates an empty result set: on
the empty store its summary is all zeros and the average payment per
client is the literal zero of the zero-client ternary branch; the
pending-invoices and transactions-by-platform statements fail identifier
resolution against the schema, so even on the empty database those two
routes answer errors instead of zero summaries. -/
theorem c6_empty_tolerance_split :
    totalPaymentsSummary (totalPaymentsRows {}) =
      { total_clients := 0, total_amount_paid := 0, average_payment_per_client := 0 } ∧
    resolveInvoiceColumns pendingInvoicesInvoiceColumnRefs =
      .error "Unknown column i.invoice_date" ∧
    resolveInvoiceColumns transactionsByPlatformInvoiceColumnRefs =
      .error "Unknown column i.invoice_date" :=
  ⟨by decide, rfl, rfl⟩

/-- C10: the summary computation of GET /api/queries/transactions-by-platform,
as a function of the result rows it is handed: the three status buckets
together with the CANCELLED rows partition the total count, so completed +
pending + failed is at most total, with strict inequality exactly when
some listed row is CANCELLED; the same holds inside every entry of the
per-platform breakdown, whose total count and total amount include the
CANCELLED rows of that platform.  Statuses range over the four-valued
enumeration of the transactions table. -/
theorem c10_cancelled_in_no_status_bucket (rows : List TxRow)
    (h : ∀ r ∈ rows, r.status = "PENDING" ∨ r.status = "COMPLETED" ∨
      r.status = "FAILED" ∨ r.status = "CANCELLED") :
    let s := transactionsByPlatformSummary rows
    (s.completed_transactions + s.pending_transactions + s.failed_transactions
        ≤ s.total_transactions)
    ∧ (s.completed_transactions + s.pending_transactions + s.failed_transactions
        < s.total_transactions ↔ ∃ r ∈ rows, r.status = "CANCELLED")
    ∧ ∀ name ps, s.platform_statistics.lookup name = some ps →
        ps.total_transactions = (rows.filter (fun r => r.platform_name == name)).length
        ∧ ps.total_amount =
            ((rows.filter (fun r => r.platform_name == name)).map (fun r => r.amount)).sum
        ∧ ps.completed_transactions + ps.pending_transactions + ps.failed_transactions
            ≤ ps.total_transactions
        ∧ (ps.completed_transactions + ps.pending_transactions + ps.failed_transactions
            < ps.total_transactions ↔
            ∃ r ∈ rows.filter (fun r => r.platform_name == name), r.status = "CANCELLED") := by
  intro s
  have hpart := status_filter_partition rows h
  have hcs : s.completed_transactions = (rows.filter (fun r => r.status == "COMPLETED")).length := rfl
  have hps : s.pending_transactions = (rows.filter (fun r => r.status == "PENDING")).length := rfl
  have hfs : s.failed_transactions = (rows.filter (fun r => r.status == "FAILED")).length := rfl
  have hts : s.total_transactions = rows.length := rfl
  have hiff : (0 < (rows.filter (fun r => r.status == "CANCELLED")).length) ↔
      (∃ r ∈ rows, r.status = "CANCELLED") := by
    rw [filter_length_pos_iff]
    simp only [beq_iff_eq]
  refine ⟨?_, ?_, ?_⟩
  · rw [hcs, hps, hfs, hts]
    omega
  · rw [hcs, hps, hfs, hts, ← hiff]
    omega
  · intro name ps hlook
    have hplat : s.platform_statistics = rows.foldl addToPlatStats [] := rfl
    rw [hplat, platformStatsFold_lookup_gen rows [] name] at hlook
    rcases hgrp : rows.filter (fun r => r.platform_name == name) with _ | ⟨g, rest⟩
    · rw [hgrp] at hlook
      simp [lookupSpec] at hlook
    · rw [hgrp] at hlook
      simp only [lookupSpec, List.lookup_nil, Option.some.injEq] at hlook
      have hgs : ∀ x ∈ rows.filter (fun r => r.platform_name == name),
          x.status = "PENDING" ∨ x.status = "COMPLETED" ∨ x.status = "FAILED" ∨
            x.status = "CANCELLED" := by
        intro x hx
        exact h x (List.mem_filter.mp hx).1
      have hgpart := status_filter_partition (rows.filter (fun r => r.platform_name == name)) hgs
      have e1 : ps.total_transactions = (g :: rest).length := by
        rw [← hlook, applyRows_total]
        simp [emptyPlatStat]
      have e2 : ps.total_amount = ((g :: rest).map (fun r => r.amount)).sum := by
        rw [← hlook, applyRows_amount]
        simp [emptyPlatStat]
      have e3 : ps.completed_transactions =
          ((g :: rest).filter (fun r => r.status == "COMPLETED")).length := by
        rw [← hlook, applyRows_completed]
        simp [emptyPlatStat]
      have e4 : ps.pending_transactions =
          ((g :: rest).filter (fun r => r.status == "PENDING")).length := by
        rw [← hlook, applyRows_pending]
        simp [emptyPlatStat]
      have e5 : ps.failed_transactions =
          ((g :: rest).filter (fun r => r.status == "FAILED")).length := by
        rw [← hlook, applyRows_failed]
        simp [emptyPlatStat]
      rw [hgrp] at hgpart
      have hgiff : (0 < ((g :: rest).filter (fun r => r.status == "CANCELLED")).length) ↔
          (∃ r ∈ (g :: rest), r.status = "CANCELLED") := by
        rw [filter_length_pos_iff]
        simp only [beq_iff_eq]
      refine ⟨by rw [e1, hgrp], by rw [e2, hgrp], ?_, ?_⟩
      · rw [e1, e3, e4, e5]
        omega
      · rw [e1, e3, e4, e5, hgrp, ← hgiff]
        omega

/-- Witness for the CANCELLED accounting at a row set holding one row in
each of the four statuses on a single platform. -/
theorem c10_cancelled_witness :
    (∀ r ∈ c10Rows, r.status = "PENDING" ∨ r.status = "COMPLETED" ∨
      r.status = "FAILED" ∨ r.status = "CANCELLED") ∧
    (let s := transactionsByPlatformSummary c10Rows
     (s.completed_transactions + s.pending_transactions + s.failed_transactions
         ≤ s.total_transactions)
     ∧ (s.completed_transactions + s.pending_transactions + s.failed_transactions
         < s.total_transactions ↔ ∃ r ∈ c10Rows, r.status = "CANCELLED")
     ∧ ∀ name ps, s.platform_statistics.lookup name = some ps →
         ps.total_transactions = (c10Rows.filter (fun r => r.platform_name == name)).length
         ∧ ps.total_amount =
             ((c10Rows.filter (fun r => r.platform_name == name)).map (fun r => r.amount)).sum
         ∧ ps.completed_transactions + ps.pending_transactions + ps.failed_transactions
             ≤ ps.total_transactions
         ∧ (ps.completed_transactions + ps.pending_transactions + ps.failed_transactions
             < ps.total_transactions ↔
             ∃ r ∈ c10Rows.filter (fun r => r.platform_name == name), r.status = "CANCELLED")) :=
  ⟨by decide, c10_cancelled_in_no_status_bucket c10Rows (by decide)⟩
